import Mathlib

/- Verification of the block-mode acquisition pipeline of the two example
scripts src/picoscope-2206B.py and src/ps6000Examples/ps6000BlockExample.py.
Numeric expressions of the scripts are modelled in exact rational arithmetic;
machine integers returned by the driver are modelled as unbounded integers
(every status code and sample count in the claims is far from the 16- and
32-bit bounds of the ctypes values involved). -/

/-- Python built-in round, on exact rationals: round half to even. -/
def pyRound (q : ℚ) : ℤ :=
  if q - ⌊q⌋ < 1/2 then ⌊q⌋
  else if 1/2 < q - ⌊q⌋ then ⌊q⌋ + 1
  else if ⌊q⌋ % 2 = 0 then ⌊q⌋ else ⌊q⌋ + 1

/-- src/picoscope-2206B.py line 17: SAMPLING_FREQUENCY = 500e3 (Hz). -/
def SAMPLING_FREQUENCY : ℚ := 500000

/-- src/picoscope-2206B.py line 26: ACQUISITION_TIME = 1 (s). -/
def ACQUISITION_TIME : ℚ := 1

/-- src/picoscope-2206B.py line 22: timebase = round(62.5e6/SAMPLING_FREQUENCY + 2),
the branch taken for requested frequencies below 125 MHz (the script constant of
500 kHz and every input the claims use fall in this branch; the branch at line 19
for frequencies at or above 125 MHz uses a real base-2 logarithm and is not needed
by any claim). -/
def timebase (freq : ℚ) : ℤ := pyRound (62500000 / freq + 2)

/-- src/picoscope-2206B.py line 23: the actual sampling frequency of the quantized
integer timebase, printed by the script as 62.5e6/(timebase-2). -/
def actualFrequency (freq : ℚ) : ℚ := 62500000 / ((timebase freq : ℚ) - 2)

/-- src/picoscope-2206B.py line 27: samplingInterval = 1/SAMPLING_FREQUENCY, the
requested (not the quantized) sample interval. -/
def samplingInterval (freq : ℚ) : ℚ := 1 / freq

/-- src/picoscope-2206B.py line 28: totalSamples = round(ACQUISITION_TIME/samplingInterval). -/
def totalSamples (freq dur : ℚ) : ℤ := pyRound (dur / samplingInterval freq)

/-- src/picoscope-2206B.py lines 30 and 105: the buffer memory of the 2206B is
32 MS. This figure appears in comments only; the script never checks it. -/
def bufferMemoryCapacity : ℤ := 32000000

/-- Modelled from the spec: the total sample count as section 4.1 of the spec words
it, computed "from requested duration and the actual sample interval" of the
quantized integer timebase. Stated only for comparison with totalSamples, whose
definition is taken from the source. -/
def totalSamples_specActual (freq dur : ℚ) : ℤ := pyRound (dur * actualFrequency freq)

/-- src/picoscope-2206B.py line 79: preTriggerSamples = round(totalSamples/2),
using the Python built-in round. -/
def preTriggerSamples (freq dur : ℚ) : ℤ := pyRound ((totalSamples freq dur : ℚ) / 2)

/-- src/picoscope-2206B.py line 80: postTriggerSamples = totalSamples - preTriggerSamples. -/
def postTriggerSamples (freq dur : ℚ) : ℤ :=
  totalSamples freq dur - preTriggerSamples freq dur

/-- Error raised by the conversion stage. -/
inductive ConvError
  | divisionByZero
deriving DecidableEq

/-- Per-sample body of the conversion, spec section 4.3:
voltageMv = rawCounts * fullScaleRangeMv / maxADCCount. -/
def convert (k : ℤ) (rangeMv : ℚ) (maxADC : ℤ) : ℚ := (k : ℚ) * rangeMv / (maxADC : ℚ)

/-- Modelled from the spec: picosdk.functions.adc2mV is imported by both scripts
(src/picoscope-2206B.py line 8, src/ps6000Examples/ps6000BlockExample.py line 12)
but its definition is not under src/. Spec section 4.3: a pure function mapping
(RawSampleBuffer, fullScaleRange, maxADCCount) to CapturedWaveform with
voltageMv[i] = rawCounts[i] * fullScaleRangeMv / maxADCCount, failing with
DivisionByZeroError when maxADCCount == 0. -/
def adc2mV (buf : List ℤ) (rangeMv : ℚ) (maxADC : ℤ) : Except ConvError (List ℚ) :=
  if maxADC = 0 then Except.error ConvError.divisionByZero
  else Except.ok (buf.map fun k => convert k rangeMv maxADC)

/-- src/picoscope-2206B.py line 54 and src/ps6000Examples/ps6000BlockExample.py
line 30: chARange = 7, documented in the source comments as the plus-minus 2 V range. -/
def chARange : ℕ := 7

/-- src/picoscope-2206B.py line 64 and src/ps6000Examples/ps6000BlockExample.py
line 41: chBRange = 7. -/
def chBRange : ℕ := 7

/-- Modelled from the spec: the table mapping a range index to its full-scale value
in millivolts lives in picosdk.functions, which is not under src/. The spec data
model (section 3) fixes only that the range is one of a fixed ordered set of
physical values; both scripts use only index 7, documented in the source comments
as the plus-minus 2 V range, i.e. 2000 mV full scale. -/
def rangeMvOfIndex (i : ℕ) : ℚ := if i = 7 then 2000 else 0

/-- src/ps6000Examples/ps6000BlockExample.py line 131:
maxADC = ctypes.c_int16(32512). The ps6000 script initializes this constant
directly and never queries the device for a maximum ADC count value. -/
def maxADC6000 : ℤ := 32512

/-- src/ps6000Examples/ps6000BlockExample.py line 134:
adc2mVChAMax = adc2mV(bufferAMax, chARange, maxADC). -/
def adc2mVChAMax6000 (bufferAMax : List ℤ) : Except ConvError (List ℚ) :=
  adc2mV bufferAMax (rangeMvOfIndex chARange) maxADC6000

/-- src/ps6000Examples/ps6000BlockExample.py line 135:
adc2mVChBMax = adc2mV(bufferBMax, chBRange, maxADC). -/
def adc2mVChBMax6000 (bufferBMax : List ℤ) : Except ConvError (List ℚ) :=
  adc2mV bufferBMax (rangeMvOfIndex chBRange) maxADC6000

/-- numpy.linspace(start, stop, num) with the default endpoint=True: num evenly
spaced values running from start to stop inclusive. -/
def linspace (start stop : ℚ) (num : ℕ) : List ℚ :=
  if num = 0 then []
  else if num = 1 then [start]
  else (List.range num).map fun i : ℕ => start + (i : ℚ) * ((stop - start) / ((num : ℚ) - 1))

/-- src/picoscope-2206B.py line 202:
timeAxis = np.linspace(0, cTotalSamples.value * (timeIntervalns.value - 1), cTotalSamples.value),
where n is the retrieved sample count and intervalNs the device-reported actual
sample interval in nanoseconds. -/
def timeAxis (n : ℕ) (intervalNs : ℚ) : List ℚ :=
  linspace 0 ((n : ℚ) * (intervalNs - 1)) n

/-- src/ps6000Examples/ps6000BlockExample.py line 138 (source name: time):
time = np.linspace(0, cmaxSamples.value * timeIntervalns.value, cmaxSamples.value). -/
def time6000 (n : ℕ) (intervalNs : ℚ) : List ℚ :=
  linspace 0 ((n : ℚ) * intervalNs) n

/-- Device-facing operations issued by src/picoscope-2206B.py, in source order. -/
inductive Op
  | openunit
  | setChA
  | setChB
  | trigger
  | getTimebase2
  | runBlock
  | isReady
  | setDataBuffersA
  | setDataBuffersB
  | getValues
  | maximumValue
  | stop
  | close
deriving DecidableEq

/-- Abstract device driver model: the status code each driver call returns, plus
the number of isReady polls made before the ready flag becomes nonzero. -/
structure Driver where
  openunit : ℤ
  setChA : ℤ
  setChB : ℤ
  trigger : ℤ
  getTimebase2 : ℤ
  runBlock : ℤ
  readyAfter : ℕ
  setDataBuffersA : ℤ
  setDataBuffersB : ℤ
  getValues : ℤ
  maximumValue : ℤ
  stop : ℤ
  close : ℤ

/-- A run of consecutive driver calls, each followed by assert_pico_ok.
assert_pico_ok is imported from picosdk.functions, which is not under src/;
modelled from the spec (section 6): any non-success status (PICO_OK = 0) aborts
the run with a fatal error carrying the failing operation and its code. Returns
the trace of issued operations and the first failure, if any; an uncaught failure
means no operation after the failing one is issued. -/
def runSteps : List (Op × ℤ) → List Op × Option (Op × ℤ)
  | [] => ([], none)
  | (op, st) :: rest =>
    if st = 0 then
      let r := runSteps rest
      (op :: r.1, r.2)
    else ([op], some (op, st))

/-- The driver calls of src/picoscope-2206B.py before the ready poll, with their
status codes: lines 43 (openunit), 55 (setChA), 65 (setChB), 76 (trigger),
92 (getTimebase2) and 117 (runBlock); each is followed by assert_pico_ok. -/
def stepsBeforePoll (d : Driver) : List (Op × ℤ) :=
  [(Op.openunit, d.openunit), (Op.setChA, d.setChA), (Op.setChB, d.setChB),
   (Op.trigger, d.trigger), (Op.getTimebase2, d.getTimebase2), (Op.runBlock, d.runBlock)]

/-- The driver calls of src/picoscope-2206B.py after the ready poll: lines
148 (setDataBuffersA), 165 (setDataBuffersB), 186 (getValues), 194 (maximumValue),
215 (stop) and 219 (close); each is followed by assert_pico_ok. -/
def stepsAfterPoll (d : Driver) : List (Op × ℤ) :=
  [(Op.setDataBuffersA, d.setDataBuffersA), (Op.setDataBuffersB, d.setDataBuffersB),
   (Op.getValues, d.getValues), (Op.maximumValue, d.maximumValue),
   (Op.stop, d.stop), (Op.close, d.close)]

/-- src/picoscope-2206B.py lines 43-220: the full device-facing sequence of the
script, a straight line of driver calls each followed by assert_pico_ok. An
assertion failure propagates to the top of the script, so no operation after the
failing one is issued; the script has no handler, no finally block and no scoped
resource, hence no path on which stop or close would still run after a failure.
The ready poll at lines 129-132 issues readyAfter + 1 isReady calls (their status
is stored but never asserted). -/
def runPipeline (d : Driver) : List Op × Option (Op × ℤ) :=
  let pre := runSteps (stepsBeforePoll d)
  match pre.2 with
  | some e => (pre.1, some e)
  | none =>
    let post := runSteps (stepsAfterPoll d)
    (pre.1 ++ List.replicate (d.readyAfter + 1) Op.isReady ++ post.1, post.2)

/-- src/picoscope-2206B.py lines 16-45: the script computes totalSamples from the
requested frequency and duration (lines 17-28) and then opens the unit (line 43)
unconditionally; lines 29-42 only create the handle and the status dictionary and
print. There is no capacity or validity check, so the device-facing control flow
does not depend on the requested configuration. -/
def runScript (freq dur : ℚ) (d : Driver) : List Op × Option (Op × ℤ) :=
  runPipeline d

/-- src/picoscope-2206B.py lines 129-132 and src/ps6000Examples/ps6000BlockExample.py
lines 85-88: ready = c_int16(0); check = c_int16(0);
while ready.value == check.value: isReady(byref(ready)).
The check variable is never written after its initialization to 0 and the loop body
only calls isReady, which overwrites ready; the loop carries no iteration bound,
timeout or sleep. In the model, seq n is the value the n-th isReady call writes
into ready, fuel bounds the number of iterations the model may take, and none
means the loop did not exit within fuel iterations. On exit the model returns the
number of isReady calls made. -/
def pollLoop (seq : ℕ → ℤ) (check : ℤ) : ℕ → ℤ → ℕ → Option ℕ
  | 0, _, _ => none
  | fuel + 1, ready, k =>
    if ready = check then pollLoop seq check fuel (seq k) (k + 1) else some k

/-- Driver on which every call succeeds and the first isReady poll reports ready. -/
def dOk : Driver := ⟨0, 0, 0, 0, 0, 0, 0, 0, 0, 0, 0, 0, 0⟩

/-- Driver on which setChA returns the non-success status 1 and every other call
succeeds. -/
def dFailChA : Driver := ⟨0, 1, 0, 0, 0, 0, 0, 0, 0, 0, 0, 0, 0⟩

/- Helper lemmas. -/

theorem pyRound_intCast (n : ℤ) : pyRound (n : ℚ) = n := by
  unfold pyRound
  rw [Int.floor_intCast, sub_self]
  norm_num

theorem pyRound_nonneg (q : ℚ) (h : 0 ≤ q) : 0 ≤ pyRound q := by
  have hfl : 0 ≤ ⌊q⌋ := Int.floor_nonneg.mpr h
  unfold pyRound
  split_ifs <;> omega

theorem pyRound_half (n : ℤ) (hn : 0 ≤ n) :
    pyRound ((n : ℚ) / 2) = if n % 4 = 3 then n / 2 + 1 else n / 2 := by
  rcases Int.even_or_odd n with ⟨m, hm⟩ | ⟨m, hm⟩
  · have h1 : (n : ℚ) / 2 = ((m : ℤ) : ℚ) := by
      subst hm
      push_cast
      ring
    rw [h1, pyRound_intCast, if_neg (by omega)]
    omega
  · have hq : (n : ℚ) / 2 = (m : ℚ) + 1/2 := by
      subst hm
      push_cast
      ring
    have hfl : ⌊(m : ℚ) + 1/2⌋ = m := by
      rw [Int.floor_eq_iff]
      constructor
      · linarith
      · norm_num
    unfold pyRound
    rw [hq, hfl, show ((m : ℚ) + 1/2) - (m : ℚ) = 1/2 by ring]
    rw [if_neg (by norm_num), if_neg (by norm_num)]
    rcases Int.emod_two_eq_zero_or_one m with h2 | h2
    · rw [if_pos h2, if_neg (by omega)]
      omega
    · rw [if_neg (by omega), if_pos (by omega)]
      omega

theorem totalSamples_eq_pyRound_mul (freq dur : ℚ) :
    totalSamples freq dur = pyRound (dur * freq) := by
  unfold totalSamples samplingInterval
  rcases eq_or_ne freq 0 with h | h
  · rw [h]
    norm_num
  · congr 1
    field_simp

theorem totalSamples_nonneg (freq dur : ℚ) (hf : 0 < freq) (hd : 0 < dur) :
    0 ≤ totalSamples freq dur := by
  rw [totalSamples_eq_pyRound_mul]
  exact pyRound_nonneg _ (le_of_lt (mul_pos hd hf))

theorem getD_map_of_lt {α β : Type} (f : α → β) (dA : α) (dB : β) (l : List α) :
    ∀ i, i < l.length → (l.map f).getD i dB = f (l.getD i dA) := by
  induction l with
  | nil =>
    intro i h
    simp at h
  | cons a t ih =>
    intro i hi
    cases i with
    | zero => simp
    | succ j =>
      simp only [List.map_cons, List.getD_cons_succ]
      exact ih j (by simpa using hi)

/- Claim theorems, part 1: configuration and conversion. -/

/-- C4 (amended): for every valid request (positive frequency and duration),
preTriggerSamples + postTriggerSamples = totalSamples, and preTriggerSamples is
the Python round-half-to-even of totalSamples/2: it equals floor(totalSamples/2)
whenever totalSamples mod 4 is not 3, and floor(totalSamples/2) + 1 when
totalSamples mod 4 = 3. -/
theorem c4_split_amended (freq dur : ℚ) (hf : 0 < freq) (hd : 0 < dur) :
    preTriggerSamples freq dur + postTriggerSamples freq dur = totalSamples freq dur ∧
    (totalSamples freq dur % 4 ≠ 3 →
      preTriggerSamples freq dur = totalSamples freq dur / 2) ∧
    (totalSamples freq dur % 4 = 3 →
      preTriggerSamples freq dur = totalSamples freq dur / 2 + 1) := by
  have hn : 0 ≤ totalSamples freq dur := totalSamples_nonneg freq dur hf hd
  have hhalf := pyRound_half (totalSamples freq dur) hn
  refine ⟨by unfold postTriggerSamples; ring, ?_, ?_⟩
  · intro h
    unfold preTriggerSamples
    rw [hhalf, if_neg h]
  · intro h
    unfold preTriggerSamples
    rw [hhalf, if_pos h]

/-- Witness for c4_split_amended at frequency 7 Hz and duration 1 s. -/
theorem c4_split_amended_witness :
    (0 : ℚ) < 7 ∧ (0 : ℚ) < 1 ∧
    (preTriggerSamples 7 1 + postTriggerSamples 7 1 = totalSamples 7 1 ∧
     (totalSamples 7 1 % 4 ≠ 3 → preTriggerSamples 7 1 = totalSamples 7 1 / 2) ∧
     (totalSamples 7 1 % 4 = 3 → preTriggerSamples 7 1 = totalSamples 7 1 / 2 + 1)) :=
  ⟨by norm_num, by norm_num, c4_split_amended 7 1 (by norm_num) (by norm_num)⟩

/-- C4 counterexample: at the valid request of 7 Hz for 1 s the script derives
totalSamples = 7 and preTriggerSamples = round(3.5) = 4 under the Python
round-half-to-even, while floor(totalSamples/2) = 3, so the claimed equality
preTriggerSamples = floor(totalSamples/2) fails. -/
theorem c4_counterexample :
    totalSamples 7 1 = 7 ∧ preTriggerSamples 7 1 = 4 ∧ totalSamples 7 1 / 2 = 3 ∧
    preTriggerSamples 7 1 ≠ totalSamples 7 1 / 2 := by
  have h1 : totalSamples 7 1 = 7 := by
    unfold totalSamples samplingInterval
    norm_num [pyRound]
  have h2 : preTriggerSamples 7 1 = 4 := by
    unfold preTriggerSamples
    rw [h1]
    norm_num [pyRound]
  refine ⟨h1, h2, by rw [h1]; decide, ?_⟩
  rw [h1, h2]
  decide

/-- C6 (amended): the script computes totalSamples from the requested duration and
the requested sample interval 1/samplingFrequencyHz, i.e. totalSamples =
round(durationS * samplingFrequencyHz), not from the actual quantized interval;
for the request of 500 kHz over 1 s this yields 500000. -/
theorem c6_totalSamples_requested (freq dur : ℚ) :
    totalSamples freq dur = pyRound (dur * freq) ∧
    totalSamples 500000 1 = 500000 := by
  refine ⟨totalSamples_eq_pyRound_mul freq dur, ?_⟩
  unfold totalSamples samplingInterval
  norm_num [pyRound]

/-- C6 counterexample: at a requested frequency of 400 kHz over 1 s the quantized
timebase is round(62.5e6/400000 + 2) = 158, whose actual sample rate is
62.5e6/156 Hz; a totalSamples computed from the actual interval would be 400641,
but the script computes 400000 from the requested interval, so the claim that
totalSamples derives from the actual interval fails. -/
theorem c6_counterexample :
    totalSamples 400000 1 = 400000 ∧
    totalSamples_specActual 400000 1 = 400641 ∧
    totalSamples 400000 1 ≠ totalSamples_specActual 400000 1 := by
  have h1 : totalSamples 400000 1 = 400000 := by
    unfold totalSamples samplingInterval
    norm_num [pyRound]
  have h2 : totalSamples_specActual 400000 1 = 400641 := by
    have ht : timebase 400000 = 158 := by
      unfold timebase
      norm_num [pyRound]
    unfold totalSamples_specActual actualFrequency
    rw [ht]
    norm_num [pyRound]
  refine ⟨h1, h2, ?_⟩
  rw [h1, h2]
  decide

/-- C2: for every raw buffer, full-scale range and nonzero maxADCCount, the
conversion produces voltageMv[i] = rawCounts[i] * fullScaleRangeMv / maxADCCount
at every index, and the concrete buffer [0, 16256, 32512] with a 2000 mV range and
maxADCCount 32512 converts to [0, 1000, 2000] mV. -/
theorem c2_conversion (raw : List ℤ) (rangeMv : ℚ) (maxADC : ℤ) (h : maxADC ≠ 0) :
    (∃ vs, adc2mV raw rangeMv maxADC = Except.ok vs ∧ vs.length = raw.length ∧
      ∀ i, i < raw.length → vs.getD i 0 = ((raw.getD i 0 : ℤ) : ℚ) * rangeMv / (maxADC : ℚ)) ∧
    adc2mV [0, 16256, 32512] 2000 32512 = Except.ok [0, 1000, 2000] := by
  constructor
  · refine ⟨raw.map fun k => convert k rangeMv maxADC, ?_, by simp, ?_⟩
    · unfold adc2mV
      rw [if_neg h]
    · intro i hi
      rw [getD_map_of_lt _ 0 0 raw i hi]
      rfl
  · unfold adc2mV convert
    norm_num

/-- Witness for c2_conversion at the concrete buffer of the claim. -/
theorem c2_conversion_witness :
    (32512 : ℤ) ≠ 0 ∧
    ((∃ vs, adc2mV [0, 16256, 32512] 2000 32512 = Except.ok vs ∧
        vs.length = ([0, 16256, 32512] : List ℤ).length ∧
        ∀ i, i < ([0, 16256, 32512] : List ℤ).length →
          vs.getD i 0 = ((([0, 16256, 32512] : List ℤ).getD i 0 : ℤ) : ℚ) * 2000 / ((32512 : ℤ) : ℚ)) ∧
     adc2mV [0, 16256, 32512] 2000 32512 = Except.ok [0, 1000, 2000]) :=
  ⟨by decide, c2_conversion [0, 16256, 32512] 2000 32512 (by decide)⟩

/-- C7: the conversion is linear and preserves zero: for every count k within
[-maxADC, maxADC] (nonzero maxADC), convert(k, range, maxADC) =
k * convert(1, range, maxADC) exactly, and an all-zero raw buffer of any length
converts to an all-zero waveform for every range. -/
theorem c7_linearity (k : ℤ) (rangeMv : ℚ) (maxADC : ℤ) (h : maxADC ≠ 0)
    (hlo : -maxADC ≤ k) (hhi : k ≤ maxADC) :
    convert k rangeMv maxADC = (k : ℚ) * convert 1 rangeMv maxADC ∧
    ∀ n, adc2mV (List.replicate n 0) rangeMv maxADC = Except.ok (List.replicate n 0) := by
  constructor
  · unfold convert
    push_cast
    ring
  · intro n
    unfold adc2mV
    rw [if_neg h]
    congr 1
    rw [List.map_replicate]
    congr 1
    unfold convert
    norm_num

/-- Witness for c7_linearity at k = -5, range 2000 mV, maxADC 32512. -/
theorem c7_linearity_witness :
    (32512 : ℤ) ≠ 0 ∧ -(32512 : ℤ) ≤ -5 ∧ (-5 : ℤ) ≤ 32512 ∧
    (convert (-5) 2000 32512 = ((-5 : ℤ) : ℚ) * convert 1 2000 32512 ∧
     ∀ n, adc2mV (List.replicate n 0) 2000 32512 = Except.ok (List.replicate n 0)) :=
  ⟨by decide, by decide, by decide,
   c7_linearity (-5) 2000 32512 (by decide) (by decide) (by decide)⟩

/-- C8: for every raw buffer and range, conversion with maxADCCount = 0 fails with
DivisionByZeroError instead of producing values. -/
theorem c8_divisionByZero (raw : List ℤ) (rangeMv : ℚ) :
    adc2mV raw rangeMv 0 = Except.error ConvError.divisionByZero := by
  unfold adc2mV
  rw [if_pos rfl]

/-- C10: in the ps6000 script maxADC is the constant 32512, never queried from the
device, so the millivolt conversion of both channels is exactly the fixed scaling
rawCounts[i] * 2000 / 32512. -/
theorem c10_fixed_maxADC (bufA bufB : List ℤ) :
    adc2mVChAMax6000 bufA = Except.ok (bufA.map fun k : ℤ => (k : ℚ) * 2000 / 32512) ∧
    adc2mVChBMax6000 bufB = Except.ok (bufB.map fun k : ℤ => (k : ℚ) * 2000 / 32512) := by
  constructor
  · unfold adc2mVChAMax6000 adc2mV rangeMvOfIndex chARange maxADC6000 convert
    rw [if_pos rfl, if_neg (by decide)]
    congr 1
  · unfold adc2mVChBMax6000 adc2mV rangeMvOfIndex chBRange maxADC6000 convert
    rw [if_pos rfl, if_neg (by decide)]
    congr 1

/- Helper lemmas for the orchestration and the time axis. -/

theorem runSteps_head (op : Op) (st : ℤ) (rest : List (Op × ℤ)) :
    (runSteps ((op, st) :: rest)).1.head? = some op := by
  rw [runSteps]
  split_ifs <;> rfl

theorem runSteps_fail_code (l : List (Op × ℤ)) :
    ∀ op c, (runSteps l).2 = some (op, c) → c ≠ 0 := by
  induction l with
  | nil =>
    intro op c h
    simp [runSteps] at h
  | cons p t ih =>
    intro op c h
    obtain ⟨o, s⟩ := p
    rw [runSteps] at h
    by_cases hs : s = 0
    · rw [if_pos hs] at h
      exact ih op c h
    · rw [if_neg hs] at h
      simp at h
      rcases h with ⟨h1, h2⟩
      rw [← h2]
      exact hs

theorem runPipeline_failChA (d : Driver) (h0 : d.openunit = 0) (h1 : d.setChA ≠ 0) :
    runPipeline d = ([Op.openunit, Op.setChA], some (Op.setChA, d.setChA)) := by
  have hsteps : runSteps (stepsBeforePoll d)
      = ([Op.openunit, Op.setChA], some (Op.setChA, d.setChA)) := by
    simp [stepsBeforePoll, runSteps, h0, h1]
  unfold runPipeline
  rw [hsteps]

theorem runPipeline_head (d : Driver) :
    (runPipeline d).1.head? = some Op.openunit := by
  have hh : (runSteps (stepsBeforePoll d)).1.head? = some Op.openunit := by
    rw [stepsBeforePoll]
    exact runSteps_head _ _ _
  obtain ⟨t, ht⟩ : ∃ t, (runSteps (stepsBeforePoll d)).1 = Op.openunit :: t := by
    cases hl : (runSteps (stepsBeforePoll d)).1 with
    | nil =>
      rw [hl] at hh
      simp at hh
    | cons a t =>
      rw [hl] at hh
      simp at hh
      exact ⟨t, by rw [hh]⟩
  simp only [runPipeline]
  split
  · exact hh
  · rw [ht]
    simp

theorem runPipeline_fail_code (d : Driver) :
    ∀ op c, (runPipeline d).2 = some (op, c) → c ≠ 0 := by
  intro op c h
  simp only [runPipeline] at h
  rcases hm : (runSteps (stepsBeforePoll d)).2 with _ | e
  · rw [hm] at h
    simp at h
    exact runSteps_fail_code (stepsAfterPoll d) op c h
  · rw [hm] at h
    simp at h
    subst h
    exact runSteps_fail_code (stepsBeforePoll d) op c hm

theorem pollLoop_some_imp (seq : ℕ → ℤ) :
    ∀ fuel ready k j, pollLoop seq 0 fuel ready k = some j →
      ready ≠ 0 ∨ ∃ n, seq n ≠ 0 := by
  intro fuel
  induction fuel with
  | zero =>
    intro ready k j h
    simp [pollLoop] at h
  | succ m ih =>
    intro ready k j h
    by_cases hr : ready = 0
    · rw [pollLoop, if_pos hr] at h
      rcases ih (seq k) (k + 1) j h with h2 | h2
      · exact Or.inr ⟨k, h2⟩
      · exact Or.inr h2
    · exact Or.inl hr

theorem pollLoop_terminates (seq : ℕ → ℤ) :
    ∀ fuel k, (∃ m, k ≤ m ∧ m < k + fuel ∧ seq m ≠ 0) →
      (pollLoop seq 0 (fuel + 1) 0 k).isSome := by
  intro fuel
  induction fuel with
  | zero =>
    rintro k ⟨m, h1, h2, _⟩
    omega
  | succ f ih =>
    rintro k ⟨m, h1, h2, h3⟩
    rw [pollLoop, if_pos rfl]
    by_cases hk : seq k = 0
    · have hm : k + 1 ≤ m := by
        rcases eq_or_lt_of_le h1 with heq | hlt
        · rw [← heq] at h3
          exact absurd hk h3
        · omega
      have hr := ih (k + 1) ⟨m, hm, by omega, h3⟩
      rw [hk]
      exact hr
    · rw [pollLoop, if_neg hk]
      simp

theorem linspace_spec (s : ℚ) (n : ℕ) (hn : 2 ≤ n) :
    (linspace 0 s n).length = n ∧
    (linspace 0 s n).head? = some 0 ∧
    (∀ i, i < n → (linspace 0 s n).getD i 0 = (i : ℚ) * (s / ((n : ℚ) - 1))) ∧
    (0 < s → (linspace 0 s n).Pairwise (· < ·)) := by
  have h0 : n ≠ 0 := by omega
  have h1 : n ≠ 1 := by omega
  have hl : linspace 0 s n
      = (List.range n).map fun i : ℕ => (i : ℚ) * (s / ((n : ℚ) - 1)) := by
    unfold linspace
    rw [if_neg h0, if_neg h1]
    congr 1
    funext i
    ring
  rw [hl]
  refine ⟨by simp, ?_, ?_, ?_⟩
  · cases n with
    | zero => omega
    | succ m =>
      rw [List.range_succ_eq_map]
      simp
  · intro i hi
    rw [getD_map_of_lt _ 0 0 (List.range n) i (by simpa using hi)]
    congr 1
    rw [List.getD_eq_getElem?_getD, List.getElem?_range hi]
    rfl
  · intro hs
    have hnq : (2 : ℚ) ≤ (n : ℚ) := by exact_mod_cast hn
    have hstep : 0 < s / ((n : ℚ) - 1) := by
      apply div_pos hs
      linarith
    rw [List.pairwise_map]
    refine List.Pairwise.imp ?_ (List.pairwise_lt_range n)
    intro a b hab
    have hab2 : (a : ℚ) < (b : ℚ) := by exact_mod_cast hab
    exact mul_lt_mul_of_pos_right hab2 hstep

/- Claim theorems, part 2: orchestration, poll loop and time axis. -/

/-- C1 (amended): for every driver on which opening succeeds and channel-A setup
returns a non-success status, the run aborts at setChA with an error naming the
setChA operation and its code, no later device-facing step is issued (the trace
is exactly [openunit, setChA], so trigger setup never happens), and the stop and
close operations are NOT executed either: the script has no cleanup path, so an
assertion failure ends the run before lines 215 and 219 are reached. -/
theorem c1_failChA_no_cleanup (d : Driver) (h0 : d.openunit = 0) (h1 : d.setChA ≠ 0) :
    (runPipeline d).2 = some (Op.setChA, d.setChA) ∧
    (runPipeline d).1 = [Op.openunit, Op.setChA] ∧
    Op.trigger ∉ (runPipeline d).1 ∧
    Op.stop ∉ (runPipeline d).1 ∧
    Op.close ∉ (runPipeline d).1 := by
  have h := runPipeline_failChA d h0 h1
  rw [h]
  refine ⟨rfl, rfl, ?_, ?_, ?_⟩ <;> simp

/-- Witness for c1_failChA_no_cleanup at the concrete driver dFailChA. -/
theorem c1_failChA_no_cleanup_witness :
    dFailChA.openunit = 0 ∧ dFailChA.setChA ≠ 0 ∧
    ((runPipeline dFailChA).2 = some (Op.setChA, dFailChA.setChA) ∧
     (runPipeline dFailChA).1 = [Op.openunit, Op.setChA] ∧
     Op.trigger ∉ (runPipeline dFailChA).1 ∧
     Op.stop ∉ (runPipeline dFailChA).1 ∧
     Op.close ∉ (runPipeline dFailChA).1) :=
  ⟨rfl, by decide, c1_failChA_no_cleanup dFailChA rfl (by decide)⟩

/-- C1 counterexample: on the driver where setChA returns status 1, the run aborts
at setChA and does not proceed to trigger setup, but the stop and close operations
are not executed either, refuting the claim that stop and close are nevertheless
still executed before the run ends. -/
theorem c1_counterexample :
    (runPipeline dFailChA).2 = some (Op.setChA, 1) ∧
    Op.trigger ∉ (runPipeline dFailChA).1 ∧
    Op.stop ∉ (runPipeline dFailChA).1 ∧
    Op.close ∉ (runPipeline dFailChA).1 := by
  decide

/-- C5 (amended): the script checks nothing before contacting the device: for
every requested configuration, including any whose totalSamples exceeds the 32 MS
buffer capacity, the first device-facing operation openunit is issued, and the
only failures a run can produce are device-status failures (some operation with a
nonzero code); there is no ConfigurationError exit at all. -/
theorem c5_no_capacity_check (freq dur : ℚ) (d : Driver) :
    (runScript freq dur d).1.head? = some Op.openunit ∧
    ∀ op c, (runScript freq dur d).2 = some (op, c) → c ≠ 0 := by
  constructor
  · exact runPipeline_head d
  · exact runPipeline_fail_code d

/-- C5 counterexample: the request of 500 kHz for 100 s yields totalSamples =
50,000,000, above the 32 MS buffer capacity, yet the run still opens the unit as
its first device-facing call and completes without any error, refuting the claim
that such a configuration fails with a ConfigurationError before any device call. -/
theorem c5_counterexample :
    totalSamples 500000 100 = 50000000 ∧
    bufferMemoryCapacity < totalSamples 500000 100 ∧
    (runScript 500000 100 dOk).1.head? = some Op.openunit ∧
    (runScript 500000 100 dOk).2 = none := by
  have h1 : totalSamples 500000 100 = 50000000 := by
    unfold totalSamples samplingInterval
    norm_num [pyRound]
  refine ⟨h1, by rw [h1]; decide, ?_, ?_⟩ <;> decide

/-- C9: in the embedded poll loop of both scripts (ready and check both start at
0, check is the constant against which ready is compared and is never written, the
body only lets isReady overwrite ready), the loop exits within some iteration
bound if and only if some isReady call writes a nonzero ready value; in
particular, on a device that never reports ready the loop runs forever: it exits
within no finite fuel. -/
theorem c9_poll (seq : ℕ → ℤ) :
    ((∃ fuel, (pollLoop seq 0 fuel 0 0).isSome) ↔ (∃ n, seq n ≠ 0)) ∧
    ((∀ n, seq n = 0) → ∀ fuel, pollLoop seq 0 fuel 0 0 = none) := by
  constructor
  · constructor
    · rintro ⟨fuel, hs⟩
      rcases Option.isSome_iff_exists.mp hs with ⟨j, hj⟩
      rcases pollLoop_some_imp seq fuel 0 0 j hj with h | h
      · exact absurd rfl h
      · exact h
    · rintro ⟨n, hn⟩
      exact ⟨n + 1 + 1, pollLoop_terminates seq (n + 1) 0 ⟨n, by omega, by omega, hn⟩⟩
  · intro hall fuel
    cases h : pollLoop seq 0 fuel 0 0 with
    | none => rfl
    | some j =>
      rcases pollLoop_some_imp seq fuel 0 0 j h with h2 | ⟨n, h2⟩
      · exact absurd rfl h2
      · exact absurd (hall n) h2

/-- C3 (amended): for every capture with at least two retrieved samples and a
reported interval above 1 ns, both generated time axes have length totalSamples,
start at 0 and are strictly increasing, with uniform spacing
totalSamples*(intervalNs - 1)/(totalSamples - 1) in the 2206B script (which
subtracts 1 ns from the reported interval) and
totalSamples*intervalNs/(totalSamples - 1) in the ps6000 script; in neither
script is the spacing the reported sample interval itself. -/
theorem c3_timeAxis_amended (n : ℕ) (intervalNs : ℚ) (hn : 2 ≤ n)
    (hi : 1 < intervalNs) :
    (timeAxis n intervalNs).length = n ∧
    (timeAxis n intervalNs).head? = some 0 ∧
    (∀ i, i < n → (timeAxis n intervalNs).getD i 0
      = (i : ℚ) * ((n : ℚ) * (intervalNs - 1) / ((n : ℚ) - 1))) ∧
    (timeAxis n intervalNs).Pairwise (· < ·) ∧
    (time6000 n intervalNs).length = n ∧
    (time6000 n intervalNs).head? = some 0 ∧
    (∀ i, i < n → (time6000 n intervalNs).getD i 0
      = (i : ℚ) * ((n : ℚ) * intervalNs / ((n : ℚ) - 1))) ∧
    (time6000 n intervalNs).Pairwise (· < ·) := by
  have hnq : (2 : ℚ) ≤ (n : ℚ) := by exact_mod_cast hn
  obtain ⟨l1, h1, g1, p1⟩ := linspace_spec ((n : ℚ) * (intervalNs - 1)) n hn
  obtain ⟨l2, h2, g2, p2⟩ := linspace_spec ((n : ℚ) * intervalNs) n hn
  have hpos1 : 0 < (n : ℚ) * (intervalNs - 1) := by nlinarith
  have hpos2 : 0 < (n : ℚ) * intervalNs := by nlinarith
  unfold timeAxis time6000
  exact ⟨l1, h1, g1, p1 hpos1, l2, h2, g2, p2 hpos2⟩

/-- Witness for c3_timeAxis_amended at 3 samples and a 2000 ns interval. -/
theorem c3_timeAxis_amended_witness :
    2 ≤ 3 ∧ (1 : ℚ) < 2000 ∧
    ((timeAxis 3 2000).length = 3 ∧
     (timeAxis 3 2000).head? = some 0 ∧
     (∀ i, i < 3 → (timeAxis 3 2000).getD i 0
       = (i : ℚ) * ((3 : ℚ) * (2000 - 1) / ((3 : ℚ) - 1))) ∧
     (timeAxis 3 2000).Pairwise (· < ·) ∧
     (time6000 3 2000).length = 3 ∧
     (time6000 3 2000).head? = some 0 ∧
     (∀ i, i < 3 → (time6000 3 2000).getD i 0
       = (i : ℚ) * ((3 : ℚ) * 2000 / ((3 : ℚ) - 1))) ∧
     (time6000 3 2000).Pairwise (· < ·)) :=
  ⟨by norm_num, by norm_num,
   by
     have h := c3_timeAxis_amended 3 2000 (by norm_num) (by norm_num)
     exact_mod_cast h⟩

/-- C3 counterexample: with 3 retrieved samples and a reported actual interval of
2000 ns, the 2206B time axis is [0, 2998.5, 5997]; its entry at index 1 is not
1 * 2000, so the spacing is not the device-reported sample interval and the
claimed identity time[i] = i * actualSampleIntervalNs fails. -/
theorem c3_counterexample :
    timeAxis 3 2000 = [0, 5997/2, 5997] ∧
    (timeAxis 3 2000).getD 1 0 ≠ (1 : ℚ) * 2000 := by
  have hr : List.range 3 = [0, 1, 2] := rfl
  have h : timeAxis 3 2000 = [0, 5997/2, 5997] := by
    unfold timeAxis linspace
    rw [if_neg (by norm_num), if_neg (by norm_num), hr]
    simp [List.map_cons]
    norm_num
  refine ⟨h, ?_⟩
  rw [h]
  norm_num [List.getD]
